import Mathlib

/-!
Shallow embedding of `Source/SceneManager.cpp` (Graphics-Engine repository)
and proofs about its texture registry, material registry, transform builder,
uniform dispatch, lighting setup and object renderers.

Conventions:
* C++ `float` arithmetic on colors and trace constants is modelled with `ℚ`
  (the source only ever compares and copies these values); the transform and
  flame-light math, which involves `sin`/`cos`, is modelled over `ℝ`.
* The OpenGL texture-object name space is modelled by `GLState`: a counter of
  the next fresh name plus the list of names handed out so far
  (`glGenTextures` hands out a fresh name; nothing in the source ever calls
  `glDeleteTextures`).
* The struct `OBJECT_MATERIAL` and the texture-entry struct are declared in
  `SceneManager.h`, which is not part of the sources; their fields are taken
  from every use in `SceneManager.cpp` (tag, ID / diffuseColor, specularColor,
  shininess, emissiveColor, tag).  `glm::vec4` literals assigned to `vec3`
  material fields drop the fourth component.
-/

namespace GraphicsEngine

/-- Texture registry entry: `{tag: string, handle}` as used throughout
`SceneManager.cpp` (`m_textureIDs[i].tag`, `m_textureIDs[i].ID`). -/
structure TEXTURE_ID where
  tag : String
  ID : Int
deriving DecidableEq, Repr

/-- Material descriptor as used in `DefineObjectMaterials` / `FindMaterial`.
`emissiveColor` defaults to zero (only the flame material sets it). -/
structure OBJECT_MATERIAL where
  diffuseColor : ℚ × ℚ × ℚ
  specularColor : ℚ × ℚ × ℚ
  shininess : ℚ
  emissiveColor : ℚ × ℚ × ℚ := (0, 0, 0)
  tag : String
deriving DecidableEq, Repr

/-- The OpenGL texture-object name state: `nextTextureName` is the next fresh
name `glGenTextures` will hand out, `liveTextures` the names handed out so far
(none of them is ever deleted by the source). -/
structure GLState where
  nextTextureName : Nat
  liveTextures : List Nat
deriving DecidableEq, Repr

/-- `glGenTextures(1, &id)`: hands out a fresh texture-object name and records
it as in use. -/
def glGenOneTexture (gl : GLState) : Nat × GLState :=
  (gl.nextTextureName,
   { nextTextureName := gl.nextTextureName + 1,
     liveTextures := gl.liveTextures ++ [gl.nextTextureName] })

/-- The texture registry fields of `SceneManager`: the fixed 16-slot array
`m_textureIDs` and the counter `m_loadedTextures`. -/
structure TextureRegistry where
  textureIDs : List TEXTURE_ID
  loadedTextures : Nat
deriving DecidableEq, Repr

/-- The texture registry as the constructor (`SceneManager::SceneManager`,
lines 46-51) leaves it: all 16 slots hold tag `"/0"` and ID `-1`, and
`m_loadedTextures` is `0`. -/
def initialTextureRegistry : TextureRegistry :=
  { textureIDs := List.replicate 16 { tag := "/0", ID := -1 },
    loadedTextures := 0 }

/-- Decoded image data as produced by `stbi_load` (width, height, channel
count); the pixel bytes themselves are irrelevant to every claim. -/
structure ImageData where
  width : Int
  height : Int
  colorChannels : Int
deriving DecidableEq, Repr

/-- `SceneManager::CreateGLTexture` (lines 81-145).  `decoded` is the result
of `stbi_load` (`none` = decode failure).  On a successful decode the source
first generates a texture object; if the channel count is 3 or 4 it uploads
the pixels (`glTexImage2D`, no effect on the modelled state), registers
`{tag, ID}` in slot `m_loadedTextures` and increments the counter, returning
`true`; any other channel count returns `false` before the registration
(the already generated texture object is leaked).  A decode failure returns
`false` without touching anything. -/
def CreateGLTexture (reg : TextureRegistry) (gl : GLState)
    (decoded : Option ImageData) (tag : String) :
    Bool × TextureRegistry × GLState :=
  match decoded with
  | some img =>
      let r := glGenOneTexture gl
      if img.colorChannels = 3 ∨ img.colorChannels = 4 then
        (true,
         { textureIDs := reg.textureIDs.set reg.loadedTextures
             { tag := tag, ID := Int.ofNat r.1 },
           loadedTextures := reg.loadedTextures + 1 },
         r.2)
      else
        (false, reg, r.2)
  | none => (false, reg, gl)

/-- Loop body of `SceneManager::DestroyGLTextures` (lines 169-175): for each
`i < m_loadedTextures` the source calls `glGenTextures(1, &m_textureIDs[i].ID)`
- it GENERATES a fresh texture object and stores its name over the previously
registered handle; nothing is deleted.  First argument is the current index,
second the number of slots still to process. -/
def destroyGLTexturesLoop :
    Nat → Nat → TextureRegistry × GLState → TextureRegistry × GLState
  | _, 0, rg => rg
  | i, k + 1, (reg, gl) =>
      let r := glGenOneTexture gl
      let entry := reg.textureIDs.getD i { tag := "", ID := 0 }
      destroyGLTexturesLoop (i + 1) k
        ({ textureIDs := reg.textureIDs.set i { entry with ID := Int.ofNat r.1 },
           loadedTextures := reg.loadedTextures }, r.2)

/-- `SceneManager::DestroyGLTextures` (lines 169-175). -/
def DestroyGLTextures (reg : TextureRegistry) (gl : GLState) :
    TextureRegistry × GLState :=
  destroyGLTexturesLoop 0 reg.loadedTextures (reg, gl)

/-- The linear scan of `SceneManager::FindTextureID` (lines 183-201): first
entry whose tag matches wins, otherwise the sentinel `-1`. -/
def findTextureIDLoop : List TEXTURE_ID → String → Int
  | [], _ => -1
  | e :: rest, tag => if e.tag = tag then e.ID else findTextureIDLoop rest tag

/-- `SceneManager::FindTextureID`: the while loop only scans indices
`< m_loadedTextures`. -/
def FindTextureID (reg : TextureRegistry) (tag : String) : Int :=
  findTextureIDLoop (reg.textureIDs.take reg.loadedTextures) tag

/-- The linear scan of `SceneManager::FindTextureSlot` (lines 209-227),
returning the slot index of the first match, otherwise `-1`. -/
def findTextureSlotLoop : List TEXTURE_ID → String → Int → Int
  | [], _, _ => -1
  | e :: rest, tag, idx =>
      if e.tag = tag then idx else findTextureSlotLoop rest tag (idx + 1)

/-- `SceneManager::FindTextureSlot`: the while loop only scans indices
`< m_loadedTextures`. -/
def FindTextureSlot (reg : TextureRegistry) (tag : String) : Int :=
  findTextureSlotLoop (reg.textureIDs.take reg.loadedTextures) tag 0

/-- The while loop of `SceneManager::FindMaterial` (lines 244-257): walks the
material list, and at the first entry whose tag matches copies `diffuseColor`,
`specularColor` and `shininess` (not `tag`, not `emissiveColor`) into the
output parameter and stops; if no entry matches, the output parameter keeps
its incoming value. -/
def findMaterialLoop :
    List OBJECT_MATERIAL → String → OBJECT_MATERIAL → OBJECT_MATERIAL
  | [], _, material => material
  | m :: rest, tag, material =>
      if m.tag = tag then
        { material with
            diffuseColor := m.diffuseColor,
            specularColor := m.specularColor,
            shininess := m.shininess }
      else findMaterialLoop rest tag material

/-- `SceneManager::FindMaterial` (lines 235-260), modelled exactly as written:
it returns `false` only when the material list is empty; otherwise it runs the
scan loop and then returns `true` unconditionally - the loop's `bFound` flag
is never consulted at the return. -/
def FindMaterial (materials : List OBJECT_MATERIAL) (tag : String)
    (material : OBJECT_MATERIAL) : Bool × OBJECT_MATERIAL :=
  if materials.length = 0 then
    (false, material)
  else
    (true, findMaterialLoop materials tag material)

/-- `SceneManager::DefineObjectMaterials` (lines 448-501): the six materials
pushed in insertion order.  The flame material's emissive color is scaled once
by `sin(glfwGetTime()*10)*0.2 + 0.8`; that time-dependent factor is taken as
the parameter `flickerIntensity`.  `vec4` diffuse literals (glass, liquid)
drop their alpha component when stored in the `vec3` field. -/
def DefineObjectMaterials (flickerIntensity : ℚ) : List OBJECT_MATERIAL :=
  [ { diffuseColor := (0.258824, 0.258824, 0.435294),
      specularColor := (0, 0, 0), shininess := 0.3, tag := "backdrop" },
    { diffuseColor := (0.3, 0.3, 0.3),
      specularColor := (0.7, 0.6, 0.9), shininess := 95, tag := "glass" },
    { diffuseColor := (0.4, 0.4, 0.4),
      specularColor := (0.7, 0.7, 0.6), shininess := 52, tag := "metal" },
    { diffuseColor := (0.2, 0.2, 0.3),
      specularColor := (0, 0, 0), shininess := 0.1, tag := "wood" },
    { diffuseColor := (1, 0.5, 0),
      specularColor := (1, 0.6, 0.3), shininess := 32,
      emissiveColor := (1 * flickerIntensity, 0.4 * flickerIntensity,
                        0 * flickerIntensity),
      tag := "flame" },
    { diffuseColor := (0.396, 0.694, 0.996),
      specularColor := (0.3, 0.5, 0.7), shininess := 50, tag := "liquid" } ]

/-- Stands in for the uninitialized stack local `OBJECT_MATERIAL material;`
declared by `SetShaderMaterial` (line 371). -/
def uninitializedMaterial : OBJECT_MATERIAL :=
  { diffuseColor := (0, 0, 0), specularColor := (0, 0, 0),
    shininess := 0, emissiveColor := (0, 0, 0), tag := "" }

/-- `glm::radians`: degrees to radians. -/
noncomputable def radians (deg : ℝ) : ℝ := deg * (Real.pi / 180)

/-- `glm::scale(vec3(sx, sy, sz))`. -/
noncomputable def glmScale (sx sy sz : ℝ) : Matrix (Fin 4) (Fin 4) ℝ :=
  !![sx, 0, 0, 0;
     0, sy, 0, 0;
     0, 0, sz, 0;
     0, 0, 0, 1]

/-- `glm::translate(vec3(px, py, pz))`. -/
noncomputable def glmTranslate (px py pz : ℝ) : Matrix (Fin 4) (Fin 4) ℝ :=
  !![1, 0, 0, px;
     0, 1, 0, py;
     0, 0, 1, pz;
     0, 0, 0, 1]

/-- `glm::rotate(angle, vec3(ax, ay, az))` for an already unit-length axis
(the source only ever passes the three coordinate axes): the Rodrigues-form
matrix glm builds, transcribed from its column-major storage into the usual
row/column convention. -/
noncomputable def glmRotate (angle ax ay az : ℝ) : Matrix (Fin 4) (Fin 4) ℝ :=
  !![Real.cos angle + (1 - Real.cos angle) * ax * ax,
     (1 - Real.cos angle) * ay * ax - Real.sin angle * az,
     (1 - Real.cos angle) * az * ax + Real.sin angle * ay, 0;
     (1 - Real.cos angle) * ax * ay + Real.sin angle * az,
     Real.cos angle + (1 - Real.cos angle) * ay * ay,
     (1 - Real.cos angle) * az * ay - Real.sin angle * ax, 0;
     (1 - Real.cos angle) * ax * az - Real.sin angle * ay,
     (1 - Real.cos angle) * ay * az + Real.sin angle * ax,
     Real.cos angle + (1 - Real.cos angle) * az * az, 0;
     0, 0, 0, 1]

/-- The matrix `SceneManager::SetTransformations` (lines 268-298) computes:
`modelView = translation * rotationZ * rotationY * rotationX * scale`, each
rotation built by `glm::rotate(glm::radians(angle), axis)`. -/
noncomputable def setTransformations_modelView
    (sx sy sz xr yr zr px py pz : ℝ) : Matrix (Fin 4) (Fin 4) ℝ :=
  glmTranslate px py pz *
    glmRotate (radians zr) 0 0 1 *
    glmRotate (radians yr) 0 1 0 *
    glmRotate (radians xr) 1 0 0 *
    glmScale sx sy sz

/-- The spec's rotation about the world X axis (written from the spec's words
in §4.3, to be compared with `glmRotate _ 1 0 0`). -/
noncomputable def spec_rotationX (θ : ℝ) : Matrix (Fin 4) (Fin 4) ℝ :=
  !![1, 0, 0, 0;
     0, Real.cos θ, -Real.sin θ, 0;
     0, Real.sin θ, Real.cos θ, 0;
     0, 0, 0, 1]

/-- The spec's rotation about the world Y axis. -/
noncomputable def spec_rotationY (θ : ℝ) : Matrix (Fin 4) (Fin 4) ℝ :=
  !![Real.cos θ, 0, Real.sin θ, 0;
     0, 1, 0, 0;
     -Real.sin θ, 0, Real.cos θ, 0;
     0, 0, 0, 1]

/-- The spec's rotation about the world Z axis. -/
noncomputable def spec_rotationZ (θ : ℝ) : Matrix (Fin 4) (Fin 4) ℝ :=
  !![Real.cos θ, -Real.sin θ, 0, 0;
     Real.sin θ, Real.cos θ, 0, 0;
     0, 0, 1, 0;
     0, 0, 0, 1]

/-- The spec's composition contract (§4.3): matrix = Translation · RotationZ ·
RotationY · RotationX · Scale, angles converted from degrees, each rotation
about the corresponding world axis. -/
noncomputable def spec_composeModel
    (sx sy sz xr yr zr px py pz : ℝ) : Matrix (Fin 4) (Fin 4) ℝ :=
  glmTranslate px py pz *
    spec_rotationZ (radians zr) *
    spec_rotationY (radians yr) *
    spec_rotationX (radians xr) *
    glmScale sx sy sz

/-- The named uniforms of the active shader program that `SceneManager`
writes: use-texture flag, flat color, bound sampler slot, UV scale, model
matrix and the three material fields forwarded by `SetShaderMaterial`. -/
structure ShaderUniforms where
  bUseTexture : Bool
  objectColor : ℚ × ℚ × ℚ × ℚ
  objectTexture : Int
  uvScale : ℚ × ℚ
  modelMatrix : Matrix (Fin 4) (Fin 4) ℝ
  materialDiffuse : ℚ × ℚ × ℚ
  materialSpecular : ℚ × ℚ × ℚ
  materialShininess : ℚ

/-- The `SceneManager` object state: the (possibly null) shader-manager
pointer with its uniform store, the texture registry and the material list. -/
structure SceneManagerState where
  shader : Option ShaderUniforms
  textures : TextureRegistry
  objectMaterials : List OBJECT_MATERIAL

/-- `SceneManager::SetTransformations` (lines 268-298) as a state operation:
the matrix is computed unconditionally, and written to the `model` uniform
only when the shader-manager pointer is non-null. -/
noncomputable def SetTransformations (s : SceneManagerState)
    (sx sy sz xr yr zr px py pz : ℝ) : SceneManagerState :=
  let modelView := setTransformations_modelView sx sy sz xr yr zr px py pz
  match s.shader with
  | none => s
  | some sh => { s with shader := some { sh with modelMatrix := modelView } }

/-- `SceneManager::SetShaderColor` (lines 306-325): when the shader-manager
pointer is non-null, clears the use-texture flag and writes the RGBA color;
otherwise does nothing. -/
def SetShaderColor (s : SceneManagerState) (r g b a : ℚ) : SceneManagerState :=
  match s.shader with
  | none => s
  | some sh =>
      { s with
          shader := some { sh with bUseTexture := false,
                                   objectColor := (r, g, b, a) } }

/-- `SceneManager::SetShaderTexture` (lines 333-344): when the shader-manager
pointer is non-null, sets the use-texture flag and writes the slot index
resolved by `FindTextureSlot` (the `-1` sentinel when the tag is unknown);
otherwise does nothing. -/
def SetShaderTexture (s : SceneManagerState) (textureTag : String) :
    SceneManagerState :=
  match s.shader with
  | none => s
  | some sh =>
      { s with
          shader := some { sh with bUseTexture := true,
                                   objectTexture := FindTextureSlot s.textures textureTag } }

/-- `SceneManager::SetTextureUVScale` (lines 352-358): when the shader-manager
pointer is non-null, writes the `UVscale` uniform; otherwise does nothing. -/
def SetTextureUVScale (s : SceneManagerState) (u v : ℚ) : SceneManagerState :=
  match s.shader with
  | none => s
  | some sh => { s with shader := some { sh with uvScale := (u, v) } }

/-- `SceneManager::SetShaderMaterial` (lines 366-382): when the material list
is non-empty it calls `FindMaterial` on an uninitialized local and, on a
`true` return, forwards diffuse, specular and shininess (never emissive) to
the shader.  The source has no null-pointer guard here; the write is modelled
on the optional shader store. -/
def SetShaderMaterial (s : SceneManagerState) (materialTag : String) :
    SceneManagerState :=
  if s.objectMaterials.length > 0 then
    let r := FindMaterial s.objectMaterials materialTag uninitializedMaterial
    if r.1 then
      { s with shader := s.shader.map fun sh =>
          { sh with materialDiffuse := r.2.diffuseColor,
                    materialSpecular := r.2.specularColor,
                    materialShininess := r.2.shininess } }
    else s
  else s

/-- `glm::clamp` over the reals: `min(max(x, lo), hi)`. -/
noncomputable def glmClamp (x lo hi : ℝ) : ℝ := min (max x lo) hi

/-- The flicker factor of `SetupSceneLights` (line 527):
`sin(flameTime * 3.0) * 0.3 + 0.5`. -/
noncomputable def flickerFactor (t : ℝ) : ℝ := Real.sin (t * 3) * 0.3 + 0.5

/-- The flame-light color computed by `SetupSceneLights` (lines 524-543) at
time `t` with the three per-channel jitter draws `j1 j2 j3` of the uniform
`[-0.03, 0.03]` distribution: `red = clamp(1 + j1, 0, 1)`,
`green = clamp(0.2 + flicker*0.2 + j2, 0, 1)`,
`blue = clamp(0.1 + j3*0.1, 0, 1)`. -/
noncomputable def flameLightColor (t j1 j2 j3 : ℝ) : ℝ × ℝ × ℝ :=
  (glmClamp (1 + j1) 0 1,
   glmClamp (0.2 + flickerFactor t * 0.2 + j2) 0 1,
   glmClamp (0.1 + j3 * 0.1) 0 1)

/-- Componentwise `vec3 * scalar`. -/
noncomputable def scaleV3 (c : ℝ) (v : ℝ × ℝ × ℝ) : ℝ × ℝ × ℝ :=
  (c * v.1, c * v.2.1, c * v.2.2)

/-- The three color triples pushed for `pointLights[3]` (the flame light) by
`SetupSceneLights` (lines 547-549). -/
structure FlameLightUniforms where
  ambient : ℝ × ℝ × ℝ
  diffuse : ℝ × ℝ × ℝ
  specular : ℝ × ℝ × ℝ

/-- The per-frame flame-light update of `SetupSceneLights` (lines 524-550):
ambient = color * 0.1, diffuse = color, specular = color * 0.8. -/
noncomputable def setupFlameLight (t j1 j2 j3 : ℝ) : FlameLightUniforms :=
  let color := flameLightColor t j1 j2 j3
  { ambient := scaleV3 0.1 color,
    diffuse := color,
    specular := scaleV3 0.8 color }

/-- `glm::clamp` over `ℚ` (used for the flame alpha in `RenderCandle`,
line 1247, whose raw `sin` input is kept symbolic). -/
def glmClampQ (x lo hi : ℚ) : ℚ := min (max x lo) hi

/-- The primitive draw calls of the mesh library that the object renderers
invoke. -/
inductive MeshKind
  | box
  | boxSideFront
  | boxSideBack
  | boxSideLeft
  | boxSideRight
  | boxSideBottom
  | plane
  | cylinder
  | cone
  | pyramid4
  | halfSphere
  | taperedCylinder
  | torus
deriving DecidableEq, Repr

/-- The draw-relevant commands an object renderer issues, in program order:
uniform setters, the blending toggles, `glBlendFunc(GL_SRC_ALPHA,
GL_ONE_MINUS_SRC_ALPHA)` and the primitive draws.  `setTransform` carries the
nine scalar arguments of `SetTransformations` (scale, rotation degrees,
position). -/
inductive RenderCmd
  | setTransform (sx sy sz xr yr zr px py pz : ℚ)
  | setColor (r g b a : ℚ)
  | setTexture (tag : String)
  | setUV (u v : ℚ)
  | setMaterial (tag : String)
  | enableBlend
  | disableBlend
  | blendFuncSrcAlphaOneMinus
  | draw (m : MeshKind)
deriving DecidableEq, Repr

/-- The mode the next draw call consumes: flat RGBA color (`SetShaderColor`)
or textured (`SetShaderTexture`). -/
inductive DrawMode
  | flat (r g b a : ℚ)
  | textured (tag : String)
deriving DecidableEq, Repr

/-- The slice of GL / uniform state a draw's classification depends on:
whether blending is enabled, and the most recently selected mode. -/
structure TraceState where
  blend : Bool
  mode : DrawMode
deriving DecidableEq, Repr

/-- One step of state per render command. -/
def stepCmd (st : TraceState) : RenderCmd → TraceState
  | RenderCmd.setColor r g b a => { st with mode := DrawMode.flat r g b a }
  | RenderCmd.setTexture tag => { st with mode := DrawMode.textured tag }
  | RenderCmd.enableBlend => { st with blend := true }
  | RenderCmd.disableBlend => { st with blend := false }
  | _ => st

/-- Every draw of a command list, paired with the blend flag and draw mode in
force when it is issued. -/
def drawEvents (st : TraceState) : List RenderCmd → List (MeshKind × Bool × DrawMode)
  | [] => []
  | RenderCmd.draw m :: rest => (m, st.blend, st.mode) :: drawEvents st rest
  | c :: rest => drawEvents (stepCmd st c) rest

/-- State on entry to each renderer: blending disabled (the GL default, and
every renderer that enables it disables it again before returning), mode
arbitrary opaque flat white (every draw below is preceded by its own
setter). -/
def entryTraceState : TraceState :=
  { blend := false, mode := DrawMode.flat 1 1 1 1 }

/-- A draw mode is transparent when it is a flat color with alpha below one;
textured draws (and opaque flat colors) count as opaque sub-parts. -/
def transparentMode : DrawMode → Bool
  | DrawMode.flat _ _ _ a => decide (a < 1)
  | DrawMode.textured _ => false

/-- True when every draw issued while blending is enabled is transparent. -/
def noOpaqueDrawWhileBlending (trace : List RenderCmd) : Bool :=
  (drawEvents entryTraceState trace).all fun e => !e.2.1 || transparentMode e.2.2

/-- True when every draw of the renderer is issued with blending enabled. -/
def allDrawsBlended (trace : List RenderCmd) : Bool :=
  (drawEvents entryTraceState trace).all fun e => e.2.1

/-- True when the blend flag is back to disabled after the whole command
list has run. -/
def blendDisabledAtEnd (trace : List RenderCmd) : Bool :=
  !(trace.foldl stepCmd entryTraceState).blend

/-- `SceneManager::RenderPotionBottle` (lines 758-955) as its command trace.
Blending is enabled before the very first draw and disabled at the very end;
`scaleFactor = 0.9` and `liquidScaleFactor = 0.8` are inlined as in the
source. -/
def potionBottleTrace : List RenderCmd :=
  [ RenderCmd.enableBlend,
    RenderCmd.blendFuncSrcAlphaOneMinus,
    -- liquid in bottle (box)
    RenderCmd.setTransform (2 * 0.8) (2.8 * 0.8) (2 * 0.8) 0 15 0
      4 (5.5 * 0.8) (-1),
    RenderCmd.setColor 0.396 0.694 0.996 0.7,
    RenderCmd.setMaterial "liquid",
    RenderCmd.draw MeshKind.box,
    -- bottom of bottle (box minus the top side)
    RenderCmd.setTransform (2 * 0.9) (3.5 * 0.9) (2 * 0.9) 0 15 0
      4 (4.75 * 0.9) (-1),
    RenderCmd.setColor 0.196 0.294 0.796 0.65,
    RenderCmd.setMaterial "glass",
    RenderCmd.draw MeshKind.boxSideFront,
    RenderCmd.draw MeshKind.boxSideBack,
    RenderCmd.draw MeshKind.boxSideLeft,
    RenderCmd.draw MeshKind.boxSideRight,
    RenderCmd.draw MeshKind.boxSideBottom,
    -- middle of bottle (pyramid)
    RenderCmd.setTransform (2 * 0.9) (1.5 * 0.9) (2 * 0.9) 0 15 0
      4 (7.25 * 0.9) (-1),
    RenderCmd.setColor 0.196 0.294 0.796 0.65,
    RenderCmd.setMaterial "glass",
    RenderCmd.draw MeshKind.pyramid4,
    -- neck of bottle (cylinder)
    RenderCmd.setTransform (0.35 * 0.9) (2.2 * 0.9) (0.35 * 0.9) 0 15 0
      4 (7 * 0.9) (-1),
    RenderCmd.setColor 0.196 0.294 0.796 0.65,
    RenderCmd.setMaterial "glass",
    RenderCmd.draw MeshKind.cylinder,
    -- lip of bottle (torus)
    RenderCmd.setTransform (0.42 * 0.9) (0.42 * 0.9) (0.65 * 0.9) 90 0 0
      4 (9.2 * 0.9) (-1),
    RenderCmd.setColor 0.196 0.294 0.796 0.65,
    RenderCmd.setMaterial "glass",
    RenderCmd.draw MeshKind.torus,
    -- bottle closure (tapered cylinder), textured opaque rubber
    RenderCmd.setTransform (0.45 * 0.9) (0.69 * 0.9) (0.45 * 0.9) 180 0 0
      4 (9.92 * 0.9) (-1),
    RenderCmd.setTexture "rubber",
    RenderCmd.setUV 2 2,
    RenderCmd.setMaterial "wood",
    RenderCmd.draw MeshKind.taperedCylinder,
    RenderCmd.disableBlend ]

/-- `SceneManager::RenderCandle` (lines 963-1261) as its command trace.  The
flame color channels come from the namespace-level `flameColor` updated by
`SetupSceneLights` (parameters `fr fg fb`), and the flame alpha is
`clamp(sin(time*2.5)*0.2 + 0.6, 0.5, 0.8)` whose raw `sin` input is the
parameter `rawAlpha`. -/
def candleTrace (fr fg fb rawAlpha : ℚ) : List RenderCmd :=
  [ -- torus base on the floor
    RenderCmd.setTransform 1.5 1.7 1.5 90 0 0 (-5) 0.25 0.9,
    RenderCmd.setColor 0.2 0.2 0.2 1,
    RenderCmd.setTexture "metal",
    RenderCmd.setMaterial "metal",
    RenderCmd.draw MeshKind.torus,
    -- tapered cylinder bell-shaped bottom
    RenderCmd.setTransform 1.5 2.2 1.5 0 0 0 (-5) 0.3 0.9,
    RenderCmd.setColor 0.2 0.2 0.2 1,
    RenderCmd.setTexture "metal",
    RenderCmd.setMaterial "metal",
    RenderCmd.draw MeshKind.taperedCylinder,
    -- middle cylinder
    RenderCmd.setTransform 0.5 0.5 0.5 0 0 0 (-5) 2.5 0.9,
    RenderCmd.setColor 0.2 0.2 0.2 1,
    RenderCmd.setTexture "metal",
    RenderCmd.setMaterial "metal",
    RenderCmd.draw MeshKind.cylinder,
    -- middle tapered upside down cylinder
    RenderCmd.setTransform 0.58 1.4 0.58 0 90 0 (-5) 3 0.9,
    RenderCmd.setColor 0.2 0.2 0.2 1,
    RenderCmd.setTexture "metal",
    RenderCmd.setMaterial "metal",
    RenderCmd.draw MeshKind.taperedCylinder,
    -- top tapered upside down cylinder
    RenderCmd.setTransform 0.62 1.9 0.62 0 0 180 (-5) 5.8 0.9,
    RenderCmd.setColor 0.2 0.2 0.2 1,
    RenderCmd.setTexture "metal",
    RenderCmd.setMaterial "metal",
    RenderCmd.draw MeshKind.taperedCylinder,
    -- torus lip of the candleholder
    RenderCmd.setTransform 0.7 0.7 0.45 90 0 0 (-5) 5.85 0.9,
    RenderCmd.setColor 0.2 0.2 0.2 1,
    RenderCmd.setTexture "metal",
    RenderCmd.setMaterial "metal",
    RenderCmd.draw MeshKind.torus,
    -- cylinder for the actual candle
    RenderCmd.setTransform 0.35 2.4 0.35 0 0 0 (-5) 5.8 0.9,
    RenderCmd.setColor 1 1 1 1,
    RenderCmd.setTexture "candle",
    RenderCmd.setUV 2 1,
    RenderCmd.setMaterial "wood",
    RenderCmd.draw MeshKind.cylinder,
    -- cone for the wick
    RenderCmd.setTransform 0.04 0.6 0.04 0 0 0 (-5) 8 0.9,
    RenderCmd.setColor 0.1 0.1 0.1 1,
    RenderCmd.setTexture "rubber",
    RenderCmd.setMaterial "wood",
    RenderCmd.draw MeshKind.cone,
    -- flame on the wick: transparent, drawn inside the blend bracket
    RenderCmd.setTransform 0.2 0.8 0.2 0 0 0 (-5) 8 0.9,
    RenderCmd.setColor fr fg fb (glmClampQ rawAlpha 0.5 0.8),
    RenderCmd.setMaterial "flame",
    RenderCmd.enableBlend,
    RenderCmd.blendFuncSrcAlphaOneMinus,
    RenderCmd.draw MeshKind.cone,
    RenderCmd.disableBlend ]

/-- `SceneManager::RenderCauldron` (lines 1570-1687) as its command trace.
The three legs of the source's `for` loop are unrolled. -/
def cauldronTrace : List RenderCmd :=
  [ -- main body (half sphere)
    RenderCmd.setTransform 3.2 4.2 3.2 180 0 0 (-1.5) 4.6 (-2.5),
    RenderCmd.setColor 0.1 0.1 0.1 1,
    RenderCmd.setTexture "metal",
    RenderCmd.setUV 1 1,
    RenderCmd.setMaterial "metal",
    RenderCmd.draw MeshKind.halfSphere,
    -- rim (torus)
    RenderCmd.setTransform 3 3 0.6 90 0 0 (-1.5) 4.5 (-2.5),
    RenderCmd.setColor 0.1 0.1 0.1 1,
    RenderCmd.setTexture "metal",
    RenderCmd.setUV 1 1,
    RenderCmd.setMaterial "metal",
    RenderCmd.draw MeshKind.torus,
    -- three legs (tapered cylinders)
    RenderCmd.setTransform 0.6 1.9 0.3 0 0 180 (-2.8) 2 (-3),
    RenderCmd.setColor 0.1 0.1 0.1 1,
    RenderCmd.setTexture "metal",
    RenderCmd.setUV 1 1,
    RenderCmd.setMaterial "metal",
    RenderCmd.draw MeshKind.taperedCylinder,
    RenderCmd.setTransform 0.6 1.9 0.3 0 0 180 (-0.2) 2 (-3),
    RenderCmd.setColor 0.1 0.1 0.1 1,
    RenderCmd.setTexture "metal",
    RenderCmd.setUV 1 1,
    RenderCmd.setMaterial "metal",
    RenderCmd.draw MeshKind.taperedCylinder,
    RenderCmd.setTransform 0.6 1.9 0.3 0 0 180 (-1.25) 2 (-1),
    RenderCmd.setColor 0.1 0.1 0.1 1,
    RenderCmd.setTexture "metal",
    RenderCmd.setUV 1 1,
    RenderCmd.setMaterial "metal",
    RenderCmd.draw MeshKind.taperedCylinder,
    -- liquid inside the cauldron: transparent, inside the blend bracket
    RenderCmd.enableBlend,
    RenderCmd.blendFuncSrcAlphaOneMinus,
    RenderCmd.setTransform 2.8 1.5 2.8 0 0 0 (-1.5) 2.75 (-2.5),
    RenderCmd.setColor 0.3 0.8 1 0.65,
    RenderCmd.setMaterial "liquid",
    RenderCmd.draw MeshKind.cylinder,
    RenderCmd.disableBlend ]

/-- The seven object renderers `RenderScene` can invoke. -/
inductive SceneObjectRenderer
  | table
  | backdrop
  | potionBottle
  | candle
  | bottomBook
  | topBook
  | cauldron
deriving DecidableEq, Repr

/-- `SceneManager::RenderScene` (lines 619-628): the renderer invocations in
program order. -/
def RenderScene_invocations : List SceneObjectRenderer :=
  [ SceneObjectRenderer.table,
    SceneObjectRenderer.backdrop,
    SceneObjectRenderer.potionBottle,
    SceneObjectRenderer.candle,
    SceneObjectRenderer.bottomBook,
    SceneObjectRenderer.topBook,
    SceneObjectRenderer.cauldron ]

/-- The uniform-dispatch calls a renderer can interleave between draws,
as invocations of the `SceneManager` setters. -/
inductive UniformCmd
  | color (r g b a : ℚ)
  | texture (tag : String)
  | uv (u v : ℚ)
  | material (tag : String)
  | transform (sx sy sz xr yr zr px py pz : ℝ)

/-- Run one uniform-dispatch call on the scene-manager state. -/
noncomputable def applyCmd (s : SceneManagerState) : UniformCmd → SceneManagerState
  | UniformCmd.color r g b a => SetShaderColor s r g b a
  | UniformCmd.texture tag => SetShaderTexture s tag
  | UniformCmd.uv u v => SetTextureUVScale s u v
  | UniformCmd.material tag => SetShaderMaterial s tag
  | UniformCmd.transform sx sy sz xr yr zr px py pz =>
      SetTransformations s sx sy sz xr yr zr px py pz

/-- Run a whole sequence of uniform-dispatch calls in program order. -/
noncomputable def applyCmds (s : SceneManagerState) (cmds : List UniformCmd) :
    SceneManagerState :=
  cmds.foldl applyCmd s

/-- The use-texture flag a command writes, if any: `SetShaderColor` selects
flat-color mode (`false`), `SetShaderTexture` selects textured mode (`true`),
every other setter leaves the flag alone. -/
def modeOf : UniformCmd → Option Bool
  | UniformCmd.color _ _ _ _ => some false
  | UniformCmd.texture _ => some true
  | _ => none

/-- The mode selected by the most recent of the two mode setters in the
sequence, if there is one. -/
def lastModeSetter : List UniformCmd → Option Bool
  | [] => none
  | c :: rest =>
      match lastModeSetter rest with
      | some b => some b
      | none => modeOf c

/-- The `bUseTexture` uniform as seen through the (possibly null) shader
pointer. -/
def useTextureFlag (s : SceneManagerState) : Option Bool :=
  s.shader.map fun sh => sh.bUseTexture

/-- A registry as it stands after one successful texture load: slot 0 holds
GL handle `0`, and the GL side has handed out exactly that one name. -/
def oneTextureRegistry : TextureRegistry :=
  { textureIDs :=
      { tag := "fabric", ID := 0 } :: List.replicate 15 { tag := "/0", ID := -1 },
    loadedTextures := 1 }

/-- The GL name state matching `oneTextureRegistry`. -/
def oneTextureGLState : GLState := { nextTextureName := 1, liveTextures := [0] }

/-- The scene manager constructed with a null shader-manager pointer. -/
def noShaderScene : SceneManagerState :=
  { shader := none, textures := initialTextureRegistry, objectMaterials := [] }

/-- Claim C10: immediately after construction the loaded-texture count is
zero and both lookups return the sentinel `-1` for every tag, including the
placeholder tag `"/0"` the constructor wrote into all 16 slots. -/
theorem initial_texture_lookups_sentinel :
    initialTextureRegistry.loadedTextures = 0 ∧
    (∀ tag : String,
      FindTextureID initialTextureRegistry tag = -1 ∧
      FindTextureSlot initialTextureRegistry tag = -1) ∧
    FindTextureID initialTextureRegistry "/0" = -1 ∧
    FindTextureSlot initialTextureRegistry "/0" = -1 :=
  ⟨rfl, fun _ => ⟨rfl, rfl⟩, rfl, rfl⟩

/-- Claim C1 (code bug): with the scene's six materials defined and a query
tag that matches no entry, `FindMaterial` returns `true` - the found flag the
loop computed is never consulted at the return - and leaves the output
material untouched, instead of reporting not-found. -/
theorem findMaterial_true_on_missing_tag :
    (FindMaterial (DefineObjectMaterials 1) "nonexistent"
        uninitializedMaterial).1 = true ∧
    (FindMaterial (DefineObjectMaterials 1) "nonexistent"
        uninitializedMaterial).2 = uninitializedMaterial :=
  ⟨rfl, rfl⟩

/-- Claim C3 (code bug): with one registered texture, `DestroyGLTextures`
generates a fresh texture object (the live-name list grows from `[0]` to
`[0, 1]`, so nothing is released) and a second call changes the state again,
so the operation is not idempotent either. -/
theorem destroyGLTextures_allocates_instead_of_releasing :
    (DestroyGLTextures oneTextureRegistry oneTextureGLState).2.liveTextures =
      [0, 1] ∧
    DestroyGLTextures (DestroyGLTextures oneTextureRegistry oneTextureGLState).1
        (DestroyGLTextures oneTextureRegistry oneTextureGLState).2 ≠
      DestroyGLTextures oneTextureRegistry oneTextureGLState := by
  exact ⟨rfl, by decide⟩

/-- Claim C6: `CreateGLTexture` returns failure when the file cannot be
decoded or when the channel count is neither 3 nor 4, and in every such
failure case the registered-texture count is unchanged. -/
theorem createGLTexture_failure_preserves_count (reg : TextureRegistry)
    (gl : GLState) (tag : String) :
    ((CreateGLTexture reg gl none tag).1 = false ∧
     (CreateGLTexture reg gl none tag).2.1.loadedTextures =
       reg.loadedTextures) ∧
    (∀ img : ImageData, img.colorChannels ≠ 3 → img.colorChannels ≠ 4 →
      (CreateGLTexture reg gl (some img) tag).1 = false ∧
      (CreateGLTexture reg gl (some img) tag).2.1.loadedTextures =
        reg.loadedTextures) := by
  refine ⟨⟨rfl, rfl⟩, fun img h3 h4 => ?_⟩
  have h : ¬(img.colorChannels = 3 ∨ img.colorChannels = 4) := by
    rintro (h | h)
    · exact h3 h
    · exact h4 h
  constructor <;> simp [CreateGLTexture, h]

/-- Witness for C6 at a concrete 2-channel image. -/
theorem createGLTexture_failure_preserves_count_witness :
    (CreateGLTexture initialTextureRegistry
        { nextTextureName := 0, liveTextures := [] }
        (some { width := 64, height := 64, colorChannels := 2 })
        "fabric").1 = false ∧
    (CreateGLTexture initialTextureRegistry
        { nextTextureName := 0, liveTextures := [] }
        (some { width := 64, height := 64, colorChannels := 2 })
        "fabric").2.1.loadedTextures = initialTextureRegistry.loadedTextures :=
  (createGLTexture_failure_preserves_count initialTextureRegistry
      { nextTextureName := 0, liveTextures := [] } "fabric").2
    { width := 64, height := 64, colorChannels := 2 } (by decide) (by decide)

/-- Claim C9: when the shader-manager pointer is null, each of
`SetTransformations`, `SetShaderColor`, `SetShaderTexture` and
`SetTextureUVScale` is a total no-op on the scene-manager state. -/
theorem null_shader_setters_noop (s : SceneManagerState) (h : s.shader = none)
    (sx sy sz xr yr zr px py pz : ℝ) (r g b a : ℚ) (textureTag : String)
    (u v : ℚ) :
    SetTransformations s sx sy sz xr yr zr px py pz = s ∧
    SetShaderColor s r g b a = s ∧
    SetShaderTexture s textureTag = s ∧
    SetTextureUVScale s u v = s := by
  obtain ⟨sh, tex, mats⟩ := s
  cases sh with
  | none => exact ⟨rfl, rfl, rfl, rfl⟩
  | some sh => exact Option.noConfusion h

/-- Witness for C9 on a concretely constructed null-shader scene manager. -/
theorem null_shader_setters_noop_witness :
    SetTransformations noShaderScene 1 1 1 0 0 0 0 0 0 = noShaderScene ∧
    SetShaderColor noShaderScene 1 1 1 1 = noShaderScene ∧
    SetShaderTexture noShaderScene "fabric" = noShaderScene ∧
    SetTextureUVScale noShaderScene 1 1 = noShaderScene :=
  null_shader_setters_noop noShaderScene rfl 1 1 1 0 0 0 0 0 0 1 1 1 1
    "fabric" 1 1

/-- Claim C7: `RenderScene` invokes the object renderers exactly once each,
in the fixed order table, backdrop, potion bottle, candle, bottom book, top
book, cauldron. -/
theorem renderScene_order_and_once :
    RenderScene_invocations =
      [ SceneObjectRenderer.table, SceneObjectRenderer.backdrop,
        SceneObjectRenderer.potionBottle, SceneObjectRenderer.candle,
        SceneObjectRenderer.bottomBook, SceneObjectRenderer.topBook,
        SceneObjectRenderer.cauldron ] ∧
    ∀ o : SceneObjectRenderer, RenderScene_invocations.count o = 1 := by
  refine ⟨rfl, fun o => ?_⟩
  cases o <;> decide

/-- Each uniform-dispatch call on a live-shader state keeps the shader live,
leaves the registries alone, and changes the use-texture flag exactly as
`modeOf` prescribes. -/
theorem applyCmd_shape (sh : ShaderUniforms) (tex : TextureRegistry)
    (mats : List OBJECT_MATERIAL) (c : UniformCmd) :
    ∃ sh' : ShaderUniforms,
      applyCmd ⟨some sh, tex, mats⟩ c = ⟨some sh', tex, mats⟩ ∧
      sh'.bUseTexture = (modeOf c).getD sh.bUseTexture := by
  cases c with
  | color r g b a => exact ⟨_, rfl, rfl⟩
  | texture tag => exact ⟨_, rfl, rfl⟩
  | uv u v => exact ⟨_, rfl, rfl⟩
  | transform sx sy sz xr yr zr px py pz => exact ⟨_, rfl, rfl⟩
  | material tag =>
      show ∃ sh',
        SetShaderMaterial ⟨some sh, tex, mats⟩ tag = ⟨some sh', tex, mats⟩ ∧ _
      unfold SetShaderMaterial
      split
      · dsimp only
        split
        · exact ⟨_, rfl, rfl⟩
        · exact ⟨sh, rfl, rfl⟩
      · exact ⟨sh, rfl, rfl⟩

/-- Folding any sequence of uniform-dispatch calls over a live-shader state,
the use-texture flag ends up equal to the mode selected by the most recent
of the two mode setters (or the initial flag if neither was called). -/
theorem applyCmds_flag_is_last_setter (cmds : List UniformCmd) :
    ∀ (sh : ShaderUniforms) (tex : TextureRegistry)
      (mats : List OBJECT_MATERIAL),
      useTextureFlag (applyCmds ⟨some sh, tex, mats⟩ cmds) =
        some ((lastModeSetter cmds).getD sh.bUseTexture) := by
  induction cmds with
  | nil => intro sh tex mats; rfl
  | cons c rest ih =>
      intro sh tex mats
      obtain ⟨sh', hstep, hflag⟩ := applyCmd_shape sh tex mats c
      have h1 : applyCmds ⟨some sh, tex, mats⟩ (c :: rest) =
          applyCmds ⟨some sh', tex, mats⟩ rest := by
        simp [applyCmds, List.foldl_cons, hstep]
      rw [h1, ih sh' tex mats, hflag]
      cases hl : lastModeSetter rest with
      | some b => simp [lastModeSetter, hl]
      | none => simp [lastModeSetter, hl]

/-- Claim C8: flat-color and textured mode are mutually exclusive -
`SetShaderColor` clears the use-texture flag and writes the color uniform,
`SetShaderTexture` sets the flag, and after any sequence of dispatch calls
the flag equals the mode selected by the most recent of the two setters. -/
theorem shader_mode_mutual_exclusion :
    (∀ (sh : ShaderUniforms) (tex : TextureRegistry)
       (mats : List OBJECT_MATERIAL) (r g b a : ℚ),
        SetShaderColor ⟨some sh, tex, mats⟩ r g b a =
          ⟨some { sh with bUseTexture := false, objectColor := (r, g, b, a) },
           tex, mats⟩) ∧
    (∀ (sh : ShaderUniforms) (tex : TextureRegistry)
       (mats : List OBJECT_MATERIAL) (tag : String),
        SetShaderTexture ⟨some sh, tex, mats⟩ tag =
          ⟨some { sh with bUseTexture := true,
                          objectTexture := FindTextureSlot tex tag },
           tex, mats⟩) ∧
    (∀ (sh : ShaderUniforms) (tex : TextureRegistry)
       (mats : List OBJECT_MATERIAL) (cmds : List UniformCmd),
        useTextureFlag (applyCmds ⟨some sh, tex, mats⟩ cmds) =
          some ((lastModeSetter cmds).getD sh.bUseTexture)) :=
  ⟨fun _ _ _ _ _ _ _ => rfl, fun _ _ _ _ => rfl,
   fun sh tex mats cmds => applyCmds_flag_is_last_setter cmds sh tex mats⟩

/-- A value clamped to `[0, 1]` lies in `[0, 1]`, whatever the input. -/
theorem glmClamp_unit_mem (x : ℝ) : 0 ≤ glmClamp x 0 1 ∧ glmClamp x 0 1 ≤ 1 :=
  ⟨le_min (le_max_right x 0) zero_le_one, min_le_right _ _⟩

/-- Claim C5: for every time value and bounded per-channel jitter, every
channel of the flame-light color lies in `[0, 1]`; the green channel's
flicker term is `sin(t * 3) * 0.3 + 0.5`; and the pushed flame-light
uniforms are ambient = 0.1 x color, diffuse = color, specular = 0.8 x
color. -/
theorem flameLight_channels_and_uniforms (t j1 j2 j3 : ℝ)
    (_hj1 : -0.03 ≤ j1) (_hk1 : j1 ≤ 0.03)
    (_hj2 : -0.03 ≤ j2) (_hk2 : j2 ≤ 0.03)
    (_hj3 : -0.03 ≤ j3) (_hk3 : j3 ≤ 0.03) :
    (0 ≤ (flameLightColor t j1 j2 j3).1 ∧
      (flameLightColor t j1 j2 j3).1 ≤ 1) ∧
    (0 ≤ (flameLightColor t j1 j2 j3).2.1 ∧
      (flameLightColor t j1 j2 j3).2.1 ≤ 1) ∧
    (0 ≤ (flameLightColor t j1 j2 j3).2.2 ∧
      (flameLightColor t j1 j2 j3).2.2 ≤ 1) ∧
    (flameLightColor t j1 j2 j3).2.1 =
      glmClamp (0.2 + (Real.sin (t * 3) * 0.3 + 0.5) * 0.2 + j2) 0 1 ∧
    setupFlameLight t j1 j2 j3 =
      { ambient := scaleV3 0.1 (flameLightColor t j1 j2 j3),
        diffuse := flameLightColor t j1 j2 j3,
        specular := scaleV3 0.8 (flameLightColor t j1 j2 j3) } :=
  ⟨glmClamp_unit_mem _, glmClamp_unit_mem _, glmClamp_unit_mem _, rfl, rfl⟩

/-- Witness for C5 at time 0 with zero jitter. -/
theorem flameLight_channels_and_uniforms_witness :
    (0 ≤ (flameLightColor 0 0 0 0).1 ∧ (flameLightColor 0 0 0 0).1 ≤ 1) ∧
    (0 ≤ (flameLightColor 0 0 0 0).2.1 ∧ (flameLightColor 0 0 0 0).2.1 ≤ 1) ∧
    (0 ≤ (flameLightColor 0 0 0 0).2.2 ∧ (flameLightColor 0 0 0 0).2.2 ≤ 1) ∧
    (flameLightColor 0 0 0 0).2.1 =
      glmClamp (0.2 + (Real.sin (0 * 3) * 0.3 + 0.5) * 0.2 + 0) 0 1 ∧
    setupFlameLight 0 0 0 0 =
      { ambient := scaleV3 0.1 (flameLightColor 0 0 0 0),
        diffuse := flameLightColor 0 0 0 0,
        specular := scaleV3 0.8 (flameLightColor 0 0 0 0) } :=
  flameLight_channels_and_uniforms 0 0 0 0 (by norm_num) (by norm_num)
    (by norm_num) (by norm_num) (by norm_num) (by norm_num)

/-- `glm::radians` of zero degrees is zero. -/
theorem radians_zero : radians 0 = 0 := by simp [radians]

/-- glm's Rodrigues rotation at axis `(1,0,0)` is the spec's rotation about
the world X axis. -/
theorem glmRotate_unitX (θ : ℝ) : glmRotate θ 1 0 0 = spec_rotationX θ := by
  ext i j
  fin_cases i <;> fin_cases j <;> simp [glmRotate, spec_rotationX]

/-- glm's Rodrigues rotation at axis `(0,1,0)` is the spec's rotation about
the world Y axis. -/
theorem glmRotate_unitY (θ : ℝ) : glmRotate θ 0 1 0 = spec_rotationY θ := by
  ext i j
  fin_cases i <;> fin_cases j <;> simp [glmRotate, spec_rotationY]

/-- glm's Rodrigues rotation at axis `(0,0,1)` is the spec's rotation about
the world Z axis. -/
theorem glmRotate_unitZ (θ : ℝ) : glmRotate θ 0 0 1 = spec_rotationZ θ := by
  ext i j
  fin_cases i <;> fin_cases j <;> simp [glmRotate, spec_rotationZ]

/-- A rotation by zero radians is the identity, whatever the axis. -/
theorem glmRotate_zero (ax ay az : ℝ) : glmRotate 0 ax ay az = 1 := by
  ext i j
  fin_cases i <;> fin_cases j <;>
    simp [glmRotate, Matrix.one_apply, Matrix.vecHead, Matrix.vecTail]

/-- Unit scale is the identity. -/
theorem glmScale_one : glmScale 1 1 1 = 1 := by
  ext i j
  fin_cases i <;> fin_cases j <;>
    simp [glmScale, Matrix.one_apply, Matrix.vecHead, Matrix.vecTail]

/-- Zero translation is the identity. -/
theorem glmTranslate_zero : glmTranslate 0 0 0 = 1 := by
  ext i j
  fin_cases i <;> fin_cases j <;>
    simp [glmTranslate, Matrix.one_apply, Matrix.vecHead, Matrix.vecTail]

/-- The matrix `SetTransformations` computes coincides with the spec's
composition contract. -/
theorem modelView_eq_spec (sx sy sz xr yr zr px py pz : ℝ) :
    setTransformations_modelView sx sy sz xr yr zr px py pz =
      spec_composeModel sx sy sz xr yr zr px py pz := by
  unfold setTransformations_modelView spec_composeModel
  rw [glmRotate_unitX, glmRotate_unitY, glmRotate_unitZ]

/-- The all-neutral parameters produce the identity model matrix. -/
theorem modelView_identity :
    setTransformations_modelView 1 1 1 0 0 0 0 0 0 = 1 := by
  unfold setTransformations_modelView
  simp only [radians_zero, glmRotate_zero, glmScale_one, glmTranslate_zero]
  simp

/-- Claim C4: the model matrix pushed by `SetTransformations` is
Translation * RotationZ * RotationY * RotationX * Scale, angles converted
from degrees and each rotation about the corresponding world axis; the
neutral parameters (unit scale, zero rotation, zero position) push the
identity matrix. -/
theorem setTransformations_matrix_contract :
    (∀ (sh : ShaderUniforms) (tex : TextureRegistry)
       (mats : List OBJECT_MATERIAL) (sx sy sz xr yr zr px py pz : ℝ),
        SetTransformations ⟨some sh, tex, mats⟩ sx sy sz xr yr zr px py pz =
          ⟨some { sh with modelMatrix :=
                    spec_composeModel sx sy sz xr yr zr px py pz },
           tex, mats⟩) ∧
    setTransformations_modelView 1 1 1 0 0 0 0 0 0 = 1 := by
  constructor
  · intro sh tex mats sx sy sz xr yr zr px py pz
    simp only [SetTransformations, modelView_eq_spec]
  · exact modelView_identity

/-- Counterexample to claim C2 as stated: in the potion bottle renderer an
opaque sub-part - the bottle closure, drawn textured with `"rubber"` - is
drawn while blending is enabled, so the enable/disable pair does not bracket
only the transparent sub-parts. -/
theorem blend_brackets_only_transparent_counterexample :
    noOpaqueDrawWhileBlending potionBottleTrace = false ∧
    (MeshKind.taperedCylinder, true, DrawMode.textured "rubber") ∈
      drawEvents entryTraceState potionBottleTrace := by
  constructor
  · norm_num [noOpaqueDrawWhileBlending, potionBottleTrace, drawEvents,
      stepCmd, entryTraceState, transparentMode]
  · simp [potionBottleTrace, drawEvents, stepCmd, entryTraceState]

/-- Claim C2 as amended: all three blending renderers disable blending again
before returning; in the candle and cauldron renderers the enable/disable
pair brackets only transparent draws; in the potion bottle renderer the pair
instead brackets every draw of the renderer (including the opaque closure
exhibited by the counterexample). -/
theorem blend_bracketing_amended :
    (∀ fr fg fb rawAlpha : ℚ,
      blendDisabledAtEnd (candleTrace fr fg fb rawAlpha) = true ∧
      noOpaqueDrawWhileBlending (candleTrace fr fg fb rawAlpha) = true) ∧
    blendDisabledAtEnd cauldronTrace = true ∧
    noOpaqueDrawWhileBlending cauldronTrace = true ∧
    blendDisabledAtEnd potionBottleTrace = true ∧
    allDrawsBlended potionBottleTrace = true := by
  have hcauldron : noOpaqueDrawWhileBlending cauldronTrace = true := by
    norm_num [noOpaqueDrawWhileBlending, cauldronTrace, drawEvents, stepCmd,
      entryTraceState, transparentMode]
  have hpotion : allDrawsBlended potionBottleTrace = true := by
    norm_num [allDrawsBlended, potionBottleTrace, drawEvents, stepCmd,
      entryTraceState]
  refine ⟨fun fr fg fb rawAlpha => ⟨rfl, ?_⟩, rfl, hcauldron, rfl, hpotion⟩
  have h : glmClampQ rawAlpha 0.5 0.8 < 1 :=
    lt_of_le_of_lt (min_le_right _ _) (by norm_num)
  simp [noOpaqueDrawWhileBlending, candleTrace, drawEvents, stepCmd,
    entryTraceState, transparentMode, h]

end GraphicsEngine
